import Mathlib

/-!
Verification of the dependency-availability resolver of the conan-vscode
backend (src/backend), as a shallow embedding in Lean 4.

The embedded code:
  - src/backend/routes/packages.py : create_package_from_node, parse_conanfile
  - src/backend/conan_utils.py     : is_authenticated
  - src/backend/dependencies/conan_deps.py : find_conanfile
  - src/backend/models/conan_models.py : the declared pydantic models

External collaborators (the conan library: list API, remote registry,
credential checker, filesystem) are modelled as oracles passed in as
function-valued parameters; every call that can raise in Python is an
Except-valued oracle result, and the try/except structure of the Python
code becomes explicit matching on those results.

Pydantic model construction is embedded with its validation semantics:
unknown keywords are ignored, a missing required field (a declared field
without a default) raises, and a value of the wrong shape for a declared
field (a plain string where a nested model is declared) raises. The
route in packages.py violates the declared models at two construction
sites, so this embedding of the classifier surfaces those error paths
instead of an assembled record.
-/

namespace ConanVSCode

/-! ## Data model: references, remotes, graph nodes -/

/-- Recipe reference (conan RecipeReference): name, version, optional
user/channel, optional revision. The route constructs probe references
with RecipeReference(name, version, user, channel), leaving the revision
at its default None. -/
structure RecipeReference where
  name : String
  version : String
  user : Option String
  channel : Option String
  revision : Option String
deriving DecidableEq, Repr

/-- Binary-level reference (conan PkgReference): a recipe reference paired
with a package id, as built by PkgReference(node.ref, node.package_id) at
src/backend/routes/packages.py line 78. -/
structure PkgReference where
  ref : RecipeReference
  package_id : String
deriving DecidableEq, Repr

/-- Configured remote (conan Remote): name is the unique key. -/
structure Remote where
  name : String
  url : String
deriving DecidableEq, Repr

/-- Tag constant from conan.internal.graph.graph. -/
def RECIPE_INCACHE : String := "Cache"

/-- Tag constant from conan.internal.graph.graph. -/
def BINARY_CACHE : String := "Cache"

/-- Tag constant from conan.internal.graph.graph. -/
def BINARY_INVALID : String := "Invalid"

/-- Tag constant from conan.internal.graph.graph. -/
def RECIPE_DOWNLOADED : String := "Downloaded"

/-- Tag constant from conan.internal.graph.graph. -/
def BINARY_DOWNLOAD : String := "Download"

/-- Tag constant from conan.internal.graph.graph. -/
def BINARY_MISSING : String := "Missing"

/-- Dependency-graph node as produced by the external graph builder and
binary analyzer: a package reference, a binary package id, the recipe and
binary state tags (None until computed), the incompatibility explanation
node.conanfile.info.invalid, and the outgoing edges (each edge
destination is a child node; an edge is traversed via edge.dst only, so
the edge list is modelled as the list of destination nodes). -/
inductive Node where
  | mk (ref : RecipeReference) (package_id : String)
      (recipe : Option String) (binary : Option String)
      (invalid : Option String) (edges : List Node)
deriving Repr

/-- Field accessor for Node. -/
def Node.ref : Node → RecipeReference
  | .mk r _ _ _ _ _ => r

/-- Field accessor for Node. -/
def Node.package_id : Node → String
  | .mk _ p _ _ _ _ => p

/-- Field accessor for Node. -/
def Node.recipe : Node → Option String
  | .mk _ _ rc _ _ _ => rc

/-- Field accessor for Node. -/
def Node.binary : Node → Option String
  | .mk _ _ _ b _ _ => b

/-- Field accessor for Node: the incompatibility explanation
(node.conanfile.info.invalid). -/
def Node.invalid : Node → Option String
  | .mk _ _ _ _ i _ => i

/-- Field accessor for Node: destinations of the outgoing edges, in edge
order. -/
def Node.edges : Node → List Node
  | .mk _ _ _ _ _ es => es

/-! ## External collaborator oracles -/

/-- The conan list API consumed by the probes (an external collaborator).
Each call either returns a value or raises; a raised exception is an
error value here. latest_recipe_revision is part of the collaborator
interface although the route never calls it (relevant to claim C9). -/
structure ConanListAPI where
  recipe_revisions : RecipeReference → Remote → Except String (List String)
  package_revisions : PkgReference → Remote → Except String (List String)
  latest_recipe_revision : RecipeReference → Remote → Except String RecipeReference

/-- Outcome of the credential check performed by
app.remote_manager.check_credentials(remote, False) in
src/backend/conan_utils.py: it completes, raises NotFoundException, or
raises some other ConanException. -/
inductive CredCheckResult where
  | ok
  | notFound
  | conanError (msg : String)
deriving DecidableEq, Repr

/-! ## is_authenticated (src/backend/conan_utils.py lines 16-38) -/

/-- Embeds is_authenticated: the credential check completing normally
returns True, NotFoundException is treated as no-authentication-required
and returns True, any other ConanException returns False. -/
def is_authenticated (cred : Remote → CredCheckResult) (remote : Remote) : Bool :=
  match cred remote with
  | .ok => true
  | .notFound => true
  | .conanError _ => false

/-! ## Availability probes (src/backend/routes/packages.py lines 58-87) -/

/-- The reference the recipe probe queries: RecipeReference(node.ref.name,
node.ref.version, node.ref.user, node.ref.channel) built at lines 60-65,
with the revision left at its default None. -/
def probeRecipeRef (ref : RecipeReference) : RecipeReference :=
  { name := ref.name, version := ref.version, user := ref.user,
    channel := ref.channel, revision := none }

/-- Recipe probe (lines 59-74): query recipe_revisions of the
revision-cleared reference; a truthy (non-empty) result means available;
any raised exception is caught by the inner except and leaves
remote_recipe_available at False. -/
def recipeProbe (api : ConanListAPI) (ref : RecipeReference) (remote : Remote) : Bool :=
  match api.recipe_revisions (probeRecipeRef ref) remote with
  | .ok revs => !revs.isEmpty
  | .error _ => false

/-- Binary probe (lines 76-87): build PkgReference(node.ref,
node.package_id) directly from the node reference (no latest-revision
resolution) and query package_revisions; a truthy (non-empty) result
means available; any raised exception is caught by the inner except and
leaves remote_binary_available at False. -/
def binaryProbe (api : ConanListAPI) (ref : RecipeReference) (package_id : String)
    (remote : Remote) : Bool :=
  match api.package_revisions { ref := ref, package_id := package_id } remote with
  | .ok revs => !revs.isEmpty
  | .error _ => false

/-- Per-remote status combination (lines 56 and 89-92): start at "none",
set "recipe" when the recipe is available, and "recipe+binary" when the
binary is additionally available (the binary flag is only consulted
inside the recipe branch). -/
def remoteStatus (recipeAvail binaryAvail : Bool) : String :=
  if recipeAvail then (if binaryAvail then "recipe+binary" else "recipe") else "none"

/-! ## Local computations of the classifier (packages.py lines 26-45) -/

/-- recipe_status and binary_status extraction at lines 29-32:
str(node.recipe) if node.recipe else "unknown". -/
def tagString : Option String → String
  | some s => s
  | none => "unknown"

/-- local_status computation at lines 34-42: "recipe" when the recipe tag
is RECIPE_INCACHE, upgraded to "recipe+binary" when the binary tag is
additionally BINARY_CACHE, otherwise "none". -/
def localStatusOf (recipe binary : Option String) : String :=
  if tagString recipe = RECIPE_INCACHE then
    (if tagString binary = BINARY_CACHE then "recipe+binary" else "recipe")
  else "none"

/-- is_incompatible local at line 44: binary_status == BINARY_INVALID. -/
def is_incompatibleOf (binary : Option String) : Bool :=
  tagString binary = BINARY_INVALID

/-- incompatible_reason local at line 45: node.conanfile.info.invalid when
is_incompatible, else None. -/
def incompatible_reasonOf (binary invalid : Option String) : Option String :=
  if tagString binary = BINARY_INVALID then invalid else none

/-- Rendering of str(node.ref): name/version with optional user/channel
suffix. -/
def refToString (r : RecipeReference) : String :=
  r.name ++ "/" ++ r.version ++
    (match r.user with
     | some u => "@" ++ u ++ (match r.channel with
         | some c => "/" ++ c
         | none => "")
     | none => "")

/-! ## Declared pydantic models (src/backend/models/conan_models.py)

The route in packages.py constructs these models by keyword argument.
Pydantic BaseModel construction ignores unknown keywords (default
extra behavior), rejects a construction that omits a required field
(a declared field without a default), and rejects a plain string passed
for a field declared as a nested model. -/

/-- Declared model PackageRemoteStatus (conan_models.py lines 23-28):
remote_name, recipe_status and binary_status, all required (no
defaults); there is no field named status. -/
structure PackageRemoteStatus where
  remote_name : String
  recipe_status : String
  binary_status : String
deriving DecidableEq, Repr

/-- Declared model PackageLocalStatus (conan_models.py lines 17-21). -/
structure PackageLocalStatus where
  recipe_status : String
  binary_status : String
deriving DecidableEq, Repr

/-- Declared model PackageAvailability (conan_models.py lines 30-40):
every field has a default, so a construction whose keywords are all
unknown yields this record with all defaults. The local_status field is
declared as the nested model PackageLocalStatus. -/
structure PackageAvailability where
  is_incompatible : Bool := false
  incompatible_reason : Option String := none
  local_status : Option PackageLocalStatus := none
  remotes_status : List PackageRemoteStatus := []
deriving DecidableEq, Repr

/-- String-valued keyword arguments of a pydantic construction call. -/
abbrev Kwargs : Type := List (String × String)

/-- Lookup of a keyword among the arguments of a construction call. -/
def kwLookup (kw : Kwargs) (key : String) : Option String :=
  (List.find? (fun p => p.fst == key) kw).map Prod.snd

/-- Pydantic construction of PackageRemoteStatus from string keyword
arguments: the three declared fields are required (no defaults), so the
construction raises a validation error unless remote_name, recipe_status
and binary_status are all supplied; unknown keywords are ignored. -/
def validatePackageRemoteStatus (kw : Kwargs) : Except String PackageRemoteStatus :=
  match kwLookup kw "remote_name", kwLookup kw "recipe_status",
      kwLookup kw "binary_status" with
  | some rn, some rs, some bs =>
    .ok { remote_name := rn, recipe_status := rs, binary_status := bs }
  | _, _, _ => .error "validation error: field required"

/-- The keyword arguments the route passes at packages.py lines 94-97:
PackageRemoteStatus(remote_name=remote.name, status=remote_status). -/
def routeRemoteStatusKwargs (remoteName status : String) : Kwargs :=
  [("remote_name", remoteName), ("status", status)]

/-- The per-remote loop of create_package_from_node run against the
declared PackageRemoteStatus model: each iteration probes the remote,
then appends the validated model construction; a validation error raised
by the construction is not handled by the inner probe excepts, so it
escapes to the blanket handler at lines 99-101, which ends the loop and
keeps the entries appended so far. -/
def remotesStatusChecked (api : ConanListAPI) (ref : RecipeReference)
    (package_id : String) : List Remote → List PackageRemoteStatus
  | [] => []
  | remote :: rest =>
    match validatePackageRemoteStatus
        (routeRemoteStatusKwargs remote.name
          (remoteStatus (recipeProbe api ref remote)
            (binaryProbe api ref package_id remote))) with
    | .ok entry => entry :: remotesStatusChecked api ref package_id rest
    | .error _ => []

/-- Result of the per-remote loop together with its probe trace: the
remotes whose probes actually execute before the loop ends, and the
model entries successfully appended. -/
structure RemoteLoopResult where
  probed : List Remote
  entries : List PackageRemoteStatus
deriving DecidableEq, Repr

/-- The per-remote loop (packages.py lines 47-101) with its probe trace:
each iteration first runs both probes for its remote (lines 59-87), then
constructs the model entry (lines 94-97); when that construction raises
a validation error, the handler at lines 99-101 ends the loop, so the
remotes after the failing iteration are never probed. -/
def remotesLoopChecked (api : ConanListAPI) (ref : RecipeReference)
    (package_id : String) : List Remote → RemoteLoopResult
  | [] => { probed := [], entries := [] }
  | remote :: rest =>
    match validatePackageRemoteStatus
        (routeRemoteStatusKwargs remote.name
          (remoteStatus (recipeProbe api ref remote)
            (binaryProbe api ref package_id remote))) with
    | .ok entry =>
      let r := remotesLoopChecked api ref package_id rest
      { probed := remote :: r.probed, entries := entry :: r.entries }
    | .error _ => { probed := [remote], entries := [] }

/-- The python value the route passes for the local_status keyword of
PackageAvailability: the route passes the combined status string
(packages.py line 111), never a PackageLocalStatus value. -/
inductive LocalStatusArg where
  | str (s : String)
  | model (m : PackageLocalStatus)
deriving DecidableEq, Repr

/-- Pydantic validation of the local_status field of PackageAvailability:
the field is declared as the nested model PackageLocalStatus
(conan_models.py line 37), so a PackageLocalStatus value is accepted and
a plain string raises a validation error. -/
def validateLocalStatusField : LocalStatusArg → Except String (Option PackageLocalStatus)
  | .model m => .ok (some m)
  | .str _ => .error "validation error: local_status expects PackageLocalStatus"

/-- Pydantic construction of PackageAvailability from the arguments the
route passes at packages.py lines 108-113: is_incompatible (a bool,
valid), incompatible_reason (an optional string, valid), local_status
(validated against the declared nested-model field), and remotes_status
(a list of already-validated entries, valid). -/
def validatePackageAvailability (is_incompatible : Bool)
    (incompatible_reason : Option String) (local_status : LocalStatusArg)
    (remotes_status : List PackageRemoteStatus) : Except String PackageAvailability :=
  match validateLocalStatusField local_status with
  | .ok v =>
    .ok { is_incompatible := is_incompatible, incompatible_reason := incompatible_reason,
          local_status := v, remotes_status := remotes_status }
  | .error e => .error e

/-! ## Node classification (src/backend/routes/packages.py lines 26-124) -/

/-- The package record declared as model ConanPackage (conan_models.py
lines 43-50): name, version, ref, id, availability, dependencies. The
route would construct it at lines 115-122 with validly typed arguments,
so its construction is plain record assembly once an availability value
exists. -/
inductive ConanPackage where
  | mk (name version ref id : String)
      (dependencies : List ConanPackage) (availability : PackageAvailability)
deriving Repr

mutual

/-- Embeds create_package_from_node (src/backend/routes/packages.py lines
26-124) with the declared-model construction semantics: extract the
recipe/binary tags and derive the local_status, is_incompatible and
incompatible_reason locals (lines 29-45); run the per-remote loop, whose
per-entry validation error is swallowed at lines 99-101 (the loop
contributes whatever entries were appended); recursively classify every
edge destination (lines 103-106, no surrounding try, so a raised error
propagates); then construct PackageAvailability (lines 108-113), which
raises because the route passes the combined status string for the
local_status field declared as PackageLocalStatus; only on success would
the ConanPackage record of lines 115-122 be assembled. -/
def create_package_from_node (api : ConanListAPI) (remotes : List Remote) :
    Node → Except String ConanPackage
  | .mk ref package_id recipe binary invalid edges =>
    let remotes_status := remotesStatusChecked api ref package_id remotes
    match create_packages_from_edges api remotes edges with
    | .error e => .error e
    | .ok dependencies =>
      match validatePackageAvailability (is_incompatibleOf binary)
          (incompatible_reasonOf binary invalid)
          (.str (localStatusOf recipe binary)) remotes_status with
      | .error e => .error e
      | .ok availability =>
        .ok (ConanPackage.mk ref.name ref.version (refToString ref) package_id
          dependencies availability)

/-- The dependency recursion at lines 103-106: classify each edge
destination in edge order; there is no try around this loop, so the
first raised error propagates to the caller. -/
def create_packages_from_edges (api : ConanListAPI) (remotes : List Remote) :
    List Node → Except String (List ConanPackage)
  | [] => .ok []
  | n :: ns =>
    match create_package_from_node api remotes n with
    | .error e => .error e
    | .ok p =>
      match create_packages_from_edges api remotes ns with
      | .error e => .error e
      | .ok ps => .ok (p :: ps)

end

/-- The per-edge emission loop of parse_conanfile (lines 212-214), which
runs inside the per-dependency try opened at line 172: each edge
destination is classified and appended; an error raised by a
classification escapes to the handler at lines 216-217, ending the loop
and keeping the packages appended so far. -/
def walkEdges (api : ConanListAPI) (remotes : List Remote) :
    List Node → List ConanPackage
  | [] => []
  | n :: ns =>
    match create_package_from_node api remotes n with
    | .ok p => p :: walkEdges api remotes ns
    | .error _ => []

/-- The top-level emission for one dependency graph: one append attempt
per edge of the graph root (lines 212-214); the root node itself is
never classified or emitted. -/
def walkGraphRoot (api : ConanListAPI) (remotes : List Remote) (root : Node) :
    List ConanPackage :=
  walkEdges api remotes root.edges

/-! ## Remote selection (src/backend/routes/packages.py lines 138-164) -/

/-- The configured remotes, in configured order; conan_api.remotes.list()
returns exactly this list and conan_api.remotes.get(name) looks a remote
up by name, raising a not-found ConanException when no configured remote
has that name. -/
abbrev Registry : Type := List Remote

/-- Embeds conan_api.remotes.get: find the configured remote by name or
raise not-found. -/
def remotesGet (reg : Registry) (name : String) : Except String Remote :=
  match List.find? (fun r => r.name == name) reg with
  | some r => .ok r
  | none => .error ("Remote " ++ name ++ " not found")

/-- The value returned at packages.py lines 155-158 when
conan_api.remotes.get(remote_name) raises:
PackageAvailability(recipe_status="error", binary_status="error").
Neither keyword is a declared field of PackageAvailability, and every
declared field has a default, so pydantic ignores both keywords and the
construction succeeds with all defaults. -/
def errorReturnAvailability : PackageAvailability := {}

/-- Outcome of the remote set-up phase of parse_conanfile: either proceed
to graph construction with a candidate remote list, or return early from
parse_conanfile with the spurious PackageAvailability value. -/
inductive RemotesOutcome where
  | proceed (remotes : List Remote)
  | earlyReturn (value : PackageAvailability)
deriving DecidableEq, Repr

/-- Embeds lines 138-158: with a falsy remote_name (None or the empty
string) the candidates are all configured remotes; otherwise look the
named remote up (on failure, return early with the spurious value), then
append conancenter as fallback unless it is the named remote, silently
skipping a missing conancenter. -/
def setupRemotes (reg : Registry) (remote_name : Option String) : RemotesOutcome :=
  match remote_name with
  | none => .proceed reg
  | some name =>
    if name.isEmpty then .proceed reg
    else
      match remotesGet reg name with
      | .error _ => .earlyReturn errorReturnAvailability
      | .ok specific =>
        .proceed (specific ::
          (if name = "conancenter" then []
           else
             match remotesGet reg "conancenter" with
             | .ok conancenter => [conancenter]
             | .error _ => []))

/-- Embeds the authentication filter at lines 160-164: iterate over a
copy of the candidate list and remove, in place, each remote whose
is_authenticated check fails (list.remove drops the first occurrence). -/
def removeUnauthenticated (auth : Remote → Bool) (remotes : List Remote) : List Remote :=
  remotes.foldl (fun current r => if auth r then current else current.erase r) remotes

/-- The whole remote-selection phase: set-up (lines 138-158) followed by
the authentication filter (lines 160-164) on the proceed path. -/
def selectRemotes (cred : Remote → CredCheckResult) (reg : Registry)
    (remote_name : Option String) : RemotesOutcome :=
  match setupRemotes reg remote_name with
  | .proceed remotes => .proceed (removeUnauthenticated (is_authenticated cred) remotes)
  | .earlyReturn v => .earlyReturn v

/-- The graph builder (conan_api.graph.load_graph_consumer, line 166) is
reached only when the remote set-up phase proceeds; the early return at
lines 155-158 leaves parse_conanfile before any graph work. -/
def graphConstructionPerformed (outcome : RemotesOutcome) : Bool :=
  match outcome with
  | .proceed _ => true
  | .earlyReturn _ => false

/-! ## find_conanfile (src/backend/dependencies/conan_deps.py lines 31-53) -/

/-- Embeds find_conanfile: the filesystem is an oracle for os.path.exists
and abspath an oracle for os.path.abspath; conanfile.txt is probed first
and returned when present, then conanfile.py, and a 404 error is raised
when neither exists. -/
def find_conanfile (pathExists : String → Bool) (abspath : String → String)
    (workspace_path : String) : Except String String :=
  let conanfile_txt := workspace_path ++ "/" ++ "conanfile.txt"
  let conanfile_py := workspace_path ++ "/" ++ "conanfile.py"
  if pathExists conanfile_txt then .ok (abspath conanfile_txt)
  else if pathExists conanfile_py then .ok (abspath conanfile_py)
  else .error ("No conanfile found in workspace directory: " ++ workspace_path)

/-! ## Definitions following the specification text

The two definitions below are not translations of code under src; they
follow the words of the specification and exist only to be compared with
the code-derived definitions above (claims C6 and C9). -/

/-- The local package cache contents, for the probe the specification
describes. -/
structure LocalCache where
  recipe_revisions : RecipeReference → List String
  package_revisions : PkgReference → List String

/-- Follows the specification words for claim C6: run the probe logic of
the Availability Prober against the local cache and combine the two
results exactly as the per-remote status is combined; the specification
says this explicit probe is the source of truth for local_status. -/
def spec_local_status (cache : LocalCache) (ref : RecipeReference)
    (package_id : String) : String :=
  remoteStatus (!(cache.recipe_revisions (probeRecipeRef ref)).isEmpty)
    (!(cache.package_revisions { ref := ref, package_id := package_id }).isEmpty)

/-- Follows the specification words for claim C9: the binary probe first
resolves the reference to its latest revision when the revision is
unset, then forms the binary-level reference with the given binary id
and queries its revisions; present and non-empty means true, any error
means false. -/
def spec_binary_probe (api : ConanListAPI) (ref : RecipeReference)
    (package_id : String) (remote : Remote) : Bool :=
  match ref.revision with
  | some _ =>
    (match api.package_revisions { ref := ref, package_id := package_id } remote with
     | .ok revs => !revs.isEmpty
     | .error _ => false)
  | none =>
    match api.latest_recipe_revision ref remote with
    | .ok resolved =>
      (match api.package_revisions { ref := resolved, package_id := package_id } remote with
       | .ok revs => !revs.isEmpty
       | .error _ => false)
    | .error _ => false

/-! ## Helper lemmas -/

/-- The traced loop and the plain checked loop agree on the entries they
produce. -/
theorem remotesLoopChecked_entries (api : ConanListAPI) (ref : RecipeReference)
    (package_id : String) :
    ∀ remotes : List Remote,
      (remotesLoopChecked api ref package_id remotes).entries
        = remotesStatusChecked api ref package_id remotes := by
  intro remotes
  induction remotes with
  | nil => rfl
  | cons r rest ih =>
    rw [remotesLoopChecked, remotesStatusChecked]
    cases validatePackageRemoteStatus
        (routeRemoteStatusKwargs r.name
          (remoteStatus (recipeProbe api ref r)
            (binaryProbe api ref package_id r))) with
    | ok entry => simpa using ih
    | error e => rfl

/-- Classification always raises: the PackageAvailability construction at
packages.py lines 108-113 passes the combined status string for the
local_status field declared as PackageLocalStatus, so a leaf node raises
there, and a node with edges raises already while classifying its first
edge destination (lines 103-106 have no surrounding try). -/
theorem create_package_from_node_raises (api : ConanListAPI) (remotes : List Remote) :
    ∀ n : Node, create_package_from_node api remotes n
      = .error "validation error: local_status expects PackageLocalStatus"
  | .mk ref package_id recipe binary invalid [] => rfl
  | .mk ref package_id recipe binary invalid (n0 :: ns) => by
    have h := create_package_from_node_raises api remotes n0
    simp [create_package_from_node, create_packages_from_edges, h]

/-- A remote found by name carries that name. -/
theorem remotesGet_name {reg : Registry} {name : String} {r : Remote}
    (h : remotesGet reg name = .ok r) : r.name = name := by
  unfold remotesGet at h
  cases hf : List.find? (fun q => q.name == name) reg with
  | none => rw [hf] at h; cases h
  | some r0 =>
    rw [hf] at h
    cases h
    have := List.find?_some hf
    simpa using this

/-- The in-place removal loop over a duplicate-free list: erasing each
element of the iteration list that fails the check. -/
theorem foldl_erase_filter (auth : Remote → Bool) :
    ∀ (todo acc : List Remote), acc.Nodup →
      todo.foldl (fun current r => if auth r then current else current.erase r) acc =
        acc.filter (fun x => auth x || !(decide (x ∈ todo))) := by
  intro todo
  induction todo with
  | nil =>
    intro acc _
    simp
  | cons r rest ih =>
    intro acc hacc
    rw [List.foldl_cons]
    by_cases hr : auth r = true
    · rw [if_pos hr, ih acc hacc]
      congr 1
      funext x
      by_cases hxr : x = r
      · subst hxr
        simp [hr]
      · simp [hxr]
    · rw [if_neg hr, ih (acc.erase r) (hacc.erase r),
        List.Nodup.erase_eq_filter hacc r, List.filter_filter]
      congr 1
      funext x
      by_cases hxr : x = r
      · subst hxr
        simp [hr]
      · simp [hxr]

/-- Equality of a tag extraction with a tag value other than "unknown"
holds exactly when the raw tag is present with that value. -/
theorem tagString_eq_iff {t : Option String} {s : String} (hs : s ≠ "unknown") :
    tagString t = s ↔ t = some s := by
  cases t with
  | none => simp [tagString, Ne.symm hs]
  | some v => simp [tagString]

/-! ## Concrete inputs used by witnesses and counterexamples -/

/-- Concrete recipe reference with an unset revision. -/
def refW : RecipeReference :=
  { name := "zlib", version := "1.3", user := none, channel := none, revision := none }

/-- Concrete recipe reference with a resolved revision. -/
def refR : RecipeReference :=
  { name := "zlib", version := "1.3", user := none, channel := none,
    revision := some "abc123" }

/-- Concrete configured remote. -/
def remoteA : Remote := { name := "acme", url := "https://acme.example/artifactory" }

/-- Concrete configured default public remote. -/
def remoteCC : Remote := { name := "conancenter", url := "https://center2.conan.io" }

/-- Concrete registry: two configured remotes. -/
def regW : Registry := [remoteA, remoteCC]

/-- List API whose every call raises (unreachable remote). -/
def apiErr : ConanListAPI :=
  { recipe_revisions := fun _ _ => .error "connection refused",
    package_revisions := fun _ _ => .error "404 not found",
    latest_recipe_revision := fun _ _ => .error "connection refused" }

/-- List API whose every query succeeds with an empty revision list. -/
def apiEmpty : ConanListAPI :=
  { recipe_revisions := fun _ _ => .ok [],
    package_revisions := fun _ _ => .ok [],
    latest_recipe_revision := fun _ _ => .error "not found" }

/-- List API that serves package revisions only for references whose
revision is set, and resolves the latest revision on request: the
concrete situation separating the code path from the specified one. -/
def apiRevGate : ConanListAPI :=
  { recipe_revisions := fun _ _ => .ok ["r1"],
    package_revisions := fun pref _ =>
      match pref.ref.revision with
      | some _ => .ok ["pr1"]
      | none => .error "recipe revision not specified",
    latest_recipe_revision := fun ref _ =>
      .ok { ref with revision := some "abc123" } }

/-- Credential oracle: every check succeeds. -/
def credAllOk : Remote → CredCheckResult := fun _ => .ok

/-- Credential oracle: acme fails its credential check with an
authentication ConanException, conancenter answers not-found. -/
def credW : Remote → CredCheckResult := fun r =>
  if r.name = "acme" then .conanError "authentication required" else .notFound

/-- Concrete leaf node whose graph tags assert full cache residency. -/
def nodeCached : Node :=
  .mk refW "pid1" (some RECIPE_INCACHE) (some BINARY_CACHE) none []

/-- Concrete leaf node whose binary state is invalid with an
explanation. -/
def nodeInvalid : Node :=
  .mk refR "pid2" (some RECIPE_DOWNLOADED) (some BINARY_INVALID) (some "missing libfoo") []

/-- Concrete synthetic root with two leaf children. -/
def rootW : Node :=
  .mk { name := "conanfile", version := "0", user := none, channel := none,
        revision := none }
    "" none none none [nodeCached, nodeInvalid]

/-- Concrete empty local cache. -/
def emptyCache : LocalCache :=
  { recipe_revisions := fun _ => [], package_revisions := fun _ => [] }

/-! ## Claim theorems -/

/-- Claim C1 (code divergence): the probe errors themselves are absorbed
into false probe results, but with at least two selected remotes the
first iteration of the per-remote loop raises constructing its
PackageRemoteStatus entry, the handler at packages.py lines 99-101 ends
the loop — so only the first remote is ever probed and the loop yields
no entries — and the classification of the node itself then raises
constructing PackageAvailability at line 108, so it never completes. -/
theorem probe_loop_aborts (api : ConanListAPI) (ref : RecipeReference)
    (package_id : String) (r1 r2 : Remote) (rest : List Remote) (n : Node) :
    (∀ remote e, api.recipe_revisions (probeRecipeRef ref) remote = .error e →
      recipeProbe api ref remote = false) ∧
    (∀ remote e,
      api.package_revisions { ref := ref, package_id := package_id } remote = .error e →
      binaryProbe api ref package_id remote = false) ∧
    ((remotesLoopChecked api ref package_id (r1 :: r2 :: rest)).probed = [r1]) ∧
    ((remotesLoopChecked api ref package_id (r1 :: r2 :: rest)).entries = []) ∧
    (create_package_from_node api (r1 :: r2 :: rest) n
      = .error "validation error: local_status expects PackageLocalStatus") := by
  refine ⟨?_, ?_, rfl, rfl, ?_⟩
  · intro remote e h
    simp [recipeProbe, h]
  · intro remote e h
    simp [binaryProbe, h]
  · exact create_package_from_node_raises api (r1 :: r2 :: rest) n

/-- Witness for claim C1: against the unreachable remote acme the probes
raise and degrade to false, yet the loop over [acme, conancenter] probes
only acme (conancenter is never probed), yields no entries, and the
classification of the cached node raises. -/
theorem probe_loop_aborts_witness :
    (apiErr.recipe_revisions (probeRecipeRef refW) remoteA = .error "connection refused") ∧
    recipeProbe apiErr refW remoteA = false ∧
    (remotesLoopChecked apiErr refW "pid1" [remoteA, remoteCC]).probed = [remoteA] ∧
    (remotesLoopChecked apiErr refW "pid1" [remoteA, remoteCC]).entries = [] ∧
    create_package_from_node apiErr [remoteA, remoteCC] nodeCached
      = .error "validation error: local_status expects PackageLocalStatus" :=
  ⟨rfl,
   (probe_loop_aborts apiErr refW "pid1" remoteA remoteCC [] nodeCached).1
     remoteA "connection refused" rfl,
   (probe_loop_aborts apiErr refW "pid1" remoteA remoteCC [] nodeCached).2.2.1,
   (probe_loop_aborts apiErr refW "pid1" remoteA remoteCC [] nodeCached).2.2.2.1,
   (probe_loop_aborts apiErr refW "pid1" remoteA remoteCC [] nodeCached).2.2.2.2⟩

/-- Claim C2 (code divergence): with an unknown requested remote name,
parse_conanfile does not raise a fatal remote-not-found error; it
catches the registry error and returns early with the spurious
all-default PackageAvailability value, and no graph construction is
performed. -/
theorem unknown_remote_no_graph (cred : Remote → CredCheckResult) (reg : Registry)
    (name : String) (hname : name.isEmpty = false)
    (h : List.find? (fun r => r.name == name) reg = none) :
    selectRemotes cred reg (some name) = .earlyReturn errorReturnAvailability ∧
    graphConstructionPerformed (selectRemotes cred reg (some name)) = false ∧
    errorReturnAvailability.is_incompatible = false ∧
    errorReturnAvailability.incompatible_reason = none ∧
    errorReturnAvailability.local_status = none ∧
    errorReturnAvailability.remotes_status = [] := by
  have hsel : selectRemotes cred reg (some name) = .earlyReturn errorReturnAvailability := by
    simp [selectRemotes, setupRemotes, hname, remotesGet, h]
  exact ⟨hsel, by rw [hsel]; rfl, rfl, rfl, rfl, rfl⟩

/-- Witness for claim C2: requesting the unconfigured remote name
doesnotexist against the two-remote registry returns early with the
spurious value and performs no graph construction. -/
theorem unknown_remote_no_graph_witness :
    ("doesnotexist".isEmpty = false) ∧
    (List.find? (fun r => r.name == "doesnotexist") regW = none) ∧
    selectRemotes credAllOk regW (some "doesnotexist") = .earlyReturn errorReturnAvailability ∧
    graphConstructionPerformed (selectRemotes credAllOk regW (some "doesnotexist")) = false :=
  ⟨rfl, rfl,
   (unknown_remote_no_graph credAllOk regW "doesnotexist" rfl rfl).1,
   (unknown_remote_no_graph credAllOk regW "doesnotexist" rfl rfl).2.1⟩

/-- Claim C3: with no requested name the candidates are the configured
remotes in configured order; with a configured requested name the
candidates are that remote followed by conancenter exactly when
conancenter is configured and is a different remote, a missing
conancenter being silently tolerated; requesting conancenter itself
yields the single-element list. -/
theorem remote_candidate_selection (reg : Registry) (name : String) (r : Remote)
    (hname : name.isEmpty = false) (h : remotesGet reg name = .ok r) :
    setupRemotes reg none = .proceed reg ∧
    (name = "conancenter" → setupRemotes reg (some name) = .proceed [r]) ∧
    (∃ fb, setupRemotes reg (some name) = .proceed (r :: fb) ∧
      (∀ cc, fb = [cc] ↔ (remotesGet reg "conancenter" = .ok cc ∧ cc ≠ r)) ∧
      (∀ e, remotesGet reg "conancenter" = .error e → fb = [])) := by
  refine ⟨rfl, ?_, ?_⟩
  · intro hcc
    subst hcc
    simp [setupRemotes, h, show "conancenter".isEmpty = false from rfl]
  · refine ⟨if name = "conancenter" then []
      else (match remotesGet reg "conancenter" with
            | .ok conancenter => [conancenter]
            | .error _ => []), ?_, ?_, ?_⟩
    · simp [setupRemotes, hname, h]
    · intro cc
      by_cases hcc : name = "conancenter"
      · subst hcc
        simp only [if_pos rfl]
        constructor
        · intro hfb
          cases hfb
        · rintro ⟨hget, hne⟩
          rw [h] at hget
          cases hget
          exact absurd rfl hne
      · rw [if_neg hcc]
        cases hget : remotesGet reg "conancenter" with
        | error e =>
          constructor
          · intro hfb
            have hfb2 : ([] : List Remote) = [cc] := hfb
            cases hfb2
          · rintro ⟨hget2, _⟩
            cases hget2
        | ok cc0 =>
          constructor
          · intro hfb
            have hfb2 : [cc0] = [cc] := hfb
            injection hfb2 with hc _
            subst hc
            refine ⟨rfl, ?_⟩
            intro hecc
            have h2 := remotesGet_name hget
            rw [hecc, remotesGet_name h] at h2
            exact hcc h2
          · rintro ⟨hget2, _⟩
            injection hget2 with hc
            show [cc0] = [cc]
            rw [hc]
    · intro e hget
      by_cases hcc : name = "conancenter"
      · simp [hcc]
      · simp [hcc, hget]

/-- Witness for claim C3 at the concrete registry: requesting acme
yields acme followed by conancenter; the theorem also gives the
conancenter and no-name cases. -/
theorem remote_candidate_selection_witness :
    ("acme".isEmpty = false) ∧ (remotesGet regW "acme" = .ok remoteA) ∧
    (setupRemotes regW none = .proceed regW) ∧
    setupRemotes regW (some "acme") = .proceed [remoteA, remoteCC] :=
  ⟨rfl, rfl, (remote_candidate_selection regW "acme" remoteA rfl rfl).1, by
    obtain ⟨fb, hfb, hiff, -⟩ :=
      (remote_candidate_selection regW "acme" remoteA rfl rfl).2.2
    have : fb = [remoteCC] := (hiff remoteCC).mpr ⟨rfl, by decide⟩
    rw [this] at hfb
    exact hfb⟩

/-- Claim C4: the authentication filter keeps exactly the candidates
whose is_authenticated check succeeds, in their original relative order,
and the check succeeds exactly when the credential probe completes
normally or raises not-found, failing on any other credential-check
error. -/
theorem authentication_filter (cred : Remote → CredCheckResult) (l : List Remote)
    (h : l.Nodup) :
    removeUnauthenticated (is_authenticated cred) l = l.filter (is_authenticated cred) ∧
    (∀ r, is_authenticated cred r = true ↔ (cred r = .ok ∨ cred r = .notFound)) := by
  constructor
  · rw [removeUnauthenticated, foldl_erase_filter (is_authenticated cred) l l h]
    apply List.filter_congr
    intro x hx
    simp [hx]
  · intro r
    cases hcr : cred r <;> simp [is_authenticated, hcr]

/-- Witness for claim C4: acme fails its credential check with an
authentication error and is dropped, conancenter answers not-found and
is kept. -/
theorem authentication_filter_witness :
    regW.Nodup ∧
    removeUnauthenticated (is_authenticated credW) regW
      = regW.filter (is_authenticated credW) ∧
    removeUnauthenticated (is_authenticated credW) regW = [remoteCC] :=
  ⟨by decide, (authentication_filter credW regW (by decide)).1, by decide⟩

/-- Claim C5 (code divergence): the route constructs each per-remote
entry as PackageRemoteStatus(remote_name=..., status=...), but the
declared model requires remote_name, recipe_status and binary_status and
has no status field, so every such construction raises a validation
error and the per-remote loop run against the declared model yields no
entries at all, for every node and every selected remote list. -/
theorem remote_status_model_mismatch :
    (∀ name status,
      validatePackageRemoteStatus (routeRemoteStatusKwargs name status)
        = .error "validation error: field required") ∧
    (∀ api ref package_id remotes,
      remotesStatusChecked api ref package_id remotes = []) := by
  constructor
  · intro name status
    rfl
  · intro api ref package_id remotes
    cases remotes with
    | nil => rfl
    | cons r rest => rfl

/-- Claim C6 counterexample: for the node whose graph tags assert cache
residency, the local_status string the classifier computes is
"recipe+binary" while the probe logic run against the (empty) local
cache reports "none" — and the classifier never reports any local
status at all, since it raises constructing PackageAvailability. The
explicit local probe the specification describes does not win; it does
not exist. -/
theorem local_probe_not_source_of_truth :
    localStatusOf nodeCached.recipe nodeCached.binary = "recipe+binary" ∧
    spec_local_status emptyCache nodeCached.ref nodeCached.package_id = "none" ∧
    create_package_from_node apiEmpty [] nodeCached
      = .error "validation error: local_status expects PackageLocalStatus" :=
  ⟨by decide, by decide, create_package_from_node_raises apiEmpty [] nodeCached⟩

/-- Claim C6 as amended: the local_status string the classifier computes
is derived solely from the graph recipe/binary tags — "recipe" when the
recipe tag is Cache, upgraded to "recipe+binary" when the binary tag is
also Cache, otherwise "none" — with no local probe performed; and it is
never reported, because the PackageAvailability construction at
packages.py line 108 rejects the string for the field declared as
PackageLocalStatus, so the classification raises. -/
theorem local_status_from_graph_tags (api : ConanListAPI) (remotes : List Remote)
    (n : Node) :
    (localStatusOf n.recipe n.binary =
      if n.recipe = some RECIPE_INCACHE then
        (if n.binary = some BINARY_CACHE then "recipe+binary" else "recipe")
      else "none") ∧
    (create_package_from_node api remotes n
      = .error "validation error: local_status expects PackageLocalStatus") := by
  constructor
  · simp only [localStatusOf,
      tagString_eq_iff (by decide : RECIPE_INCACHE ≠ "unknown"),
      tagString_eq_iff (by decide : BINARY_CACHE ≠ "unknown")]
  · exact create_package_from_node_raises api remotes n

/-- Claim C7 (code divergence): the is_incompatible and
incompatible_reason locals at packages.py lines 44-45 implement exactly
the claimed logic — incompatible exactly when the binary tag is the
invalid tag, with the explanation taken verbatim — but no node ever
classifies to them: the PackageAvailability construction at line 108
raises before any record carrying them exists. -/
theorem incompatibility_never_reported (api : ConanListAPI) (remotes : List Remote)
    (n : Node) :
    (is_incompatibleOf n.binary = true ↔ n.binary = some BINARY_INVALID) ∧
    (n.binary = some BINARY_INVALID →
      incompatible_reasonOf n.binary n.invalid = n.invalid) ∧
    (n.binary ≠ some BINARY_INVALID →
      incompatible_reasonOf n.binary n.invalid = none) ∧
    (create_package_from_node api remotes n
      = .error "validation error: local_status expects PackageLocalStatus") := by
  have htag : (tagString n.binary = BINARY_INVALID) ↔ n.binary = some BINARY_INVALID :=
    tagString_eq_iff (by decide : BINARY_INVALID ≠ "unknown")
  refine ⟨?_, ?_, ?_, create_package_from_node_raises api remotes n⟩
  · rw [is_incompatibleOf, decide_eq_true_eq, htag]
  · intro hb
    rw [incompatible_reasonOf, if_pos (htag.mpr hb)]
  · intro hb
    rw [incompatible_reasonOf, if_neg (fun hc => hb (htag.mp hc))]

/-- Witness for claim C7: the node whose binary tag is Invalid with
explanation "missing libfoo" has locals computing incompatible with that
very reason, yet its classification raises. -/
theorem incompatibility_never_reported_witness :
    is_incompatibleOf nodeInvalid.binary = true ∧
    incompatible_reasonOf nodeInvalid.binary nodeInvalid.invalid = some "missing libfoo" ∧
    create_package_from_node apiEmpty [] nodeInvalid
      = .error "validation error: local_status expects PackageLocalStatus" :=
  ⟨(incompatibility_never_reported apiEmpty [] nodeInvalid).1.mpr rfl,
   (incompatibility_never_reported apiEmpty [] nodeInvalid).2.1 rfl,
   (incompatibility_never_reported apiEmpty [] nodeInvalid).2.2.2⟩

/-- Claim C8 (code divergence): the walk never emits the synthetic root,
but it emits nothing else either — every per-edge classification raises
(PackageAvailability construction at packages.py line 108) and the
handler at lines 216-217 swallows the error, so the walk emits zero
packages for every graph, including a root with two leaf children. -/
theorem graph_walk_emits_nothing (api : ConanListAPI) (remotes : List Remote)
    (root : Node) :
    walkGraphRoot api remotes root = [] := by
  rw [walkGraphRoot]
  cases hroot : root.edges with
  | nil => rfl
  | cons n ns =>
    simp [walkEdges, create_package_from_node_raises api remotes n]

/-- Claim C9 counterexample: against a remote that serves package
revisions only for revision-carrying references, the code probe of an
unset-revision reference answers false while the specified probe (which
first resolves the latest revision) answers true — the code performs no
latest-revision resolution. -/
theorem binary_probe_no_latest_resolution :
    binaryProbe apiRevGate refW "pid1" remoteA
      ≠ spec_binary_probe apiRevGate refW "pid1" remoteA := by
  decide

/-- Claim C9 as amended: the binary probe forms the binary-level
reference directly from the node reference (whatever its revision) and
the given binary id and queries its revisions, answering true exactly
when the query succeeds with a non-empty result; it depends only on that
one direct query — in particular it never consults
latest_recipe_revision. -/
theorem binary_probe_direct_query (api : ConanListAPI) (ref : RecipeReference)
    (package_id : String) (remote : Remote) :
    (binaryProbe api ref package_id remote = true
      ↔ ∃ revs, api.package_revisions { ref := ref, package_id := package_id } remote
            = .ok revs ∧ revs ≠ []) ∧
    (∀ api2 : ConanListAPI,
      api.package_revisions { ref := ref, package_id := package_id } remote
        = api2.package_revisions { ref := ref, package_id := package_id } remote →
      binaryProbe api ref package_id remote = binaryProbe api2 ref package_id remote) := by
  constructor
  · rw [binaryProbe]
    cases hq : api.package_revisions { ref := ref, package_id := package_id } remote with
    | error e => simp
    | ok revs => simp [List.isEmpty_iff]
  · intro api2 h2
    rw [binaryProbe, binaryProbe, h2]

/-- Witness for claim C9 amended theorem: for the revision-carrying
reference the gated API serves one package revision and the probe
answers true. -/
theorem binary_probe_direct_query_witness :
    (apiRevGate.package_revisions { ref := refR, package_id := "pid1" } remoteA
      = .ok ["pr1"]) ∧
    binaryProbe apiRevGate refR "pid1" remoteA = true :=
  ⟨rfl,
   (binary_probe_direct_query apiRevGate refR "pid1" remoteA).1.mpr
     ⟨["pr1"], rfl, by decide⟩⟩

/-- Claim C10: the manifest lookup returns the conanfile.txt path
whenever conanfile.txt exists (so conanfile.txt takes priority over a
coexisting conanfile.py), and raises the not-found error exactly when
neither conanfile.txt nor conanfile.py exists in the workspace
directory. -/
theorem find_conanfile_priority (pathExists : String → Bool)
    (abspath : String → String) (workspace_path : String) :
    (pathExists (workspace_path ++ "/" ++ "conanfile.txt") = true →
      find_conanfile pathExists abspath workspace_path
        = .ok (abspath (workspace_path ++ "/" ++ "conanfile.txt"))) ∧
    ((∃ e, find_conanfile pathExists abspath workspace_path = .error e)
      ↔ (pathExists (workspace_path ++ "/" ++ "conanfile.txt") = false ∧
         pathExists (workspace_path ++ "/" ++ "conanfile.py") = false)) := by
  constructor
  · intro ht
    simp [find_conanfile, ht]
  · cases ht : pathExists (workspace_path ++ "/" ++ "conanfile.txt") with
    | true => simp [find_conanfile, ht]
    | false =>
      cases hp : pathExists (workspace_path ++ "/" ++ "conanfile.py") with
      | true => simp [find_conanfile, ht, hp]
      | false => simp [find_conanfile, ht, hp]

/-- Witness for claim C10: with both manifest files present the lookup
returns the conanfile.txt path. -/
theorem find_conanfile_priority_witness :
    ((fun _ : String => true) ("/w" ++ "/" ++ "conanfile.txt") = true) ∧
    find_conanfile (fun _ => true) (fun s => s) "/w"
      = .ok ("/w" ++ "/" ++ "conanfile.txt") :=
  ⟨rfl, (find_conanfile_priority (fun _ => true) (fun s => s) "/w").1 rfl⟩

end ConanVSCode
